import Mathlib

/-!
Shallow embedding of `src/static/app.js` (RAW Photo Batch Processor frontend logic)
and verification of the spec's claims about it.

Modelling conventions:
* JS numbers holding adjustment values are modelled as rationals (`ℚ`); the embedded
  code only stores, forwards and compares them, so no floating-point behaviour is lost.
* The single global `state` object (app.js lines 4-22) together with the DOM observables
  the claims talk about (preview/comparison visibility, the `src` of the preview images)
  is one structure `AppState`.  Cosmetic DOM output that no claim mentions (loading
  spinner, text labels, file-list markup, pixel positions of the comparison slider)
  is not represented.
* JavaScript's run-to-completion semantics makes every handler atomic between `await`
  points.  Handlers are therefore events of a step function; the asynchronous
  boundaries that matter (debounce timer elapse, preview fetch resolution, progress
  channel events) are separate events, so arbitrary interleavings at those points are
  covered.  `loadBeforeImage`'s own fetch is resolved synchronously inside the events
  that await it (a `Bool` outcome parameter), matching the `await` in the source.
* Network fetches are recorded in issue order: `issuedFetches` logs every preview
  fetch the debounce callback issues (app.js line 177), `baselineFetches` every
  before-image fetch (line 226).  Resolution of preview fetch number `i` is the
  event `previewArrive i ok`.
* Timers: `setTimeout` hands out the fresh identifier `nextTimer`; `liveTimers` is the
  set of scheduled, not-yet-fired, not-yet-cancelled timers; `previewDebounce` mirrors
  the variable `state.previewDebounce` (which may keep a stale id of an already fired
  timer, exactly as in the source, where `clearTimeout` on a fired id is a no-op).
-/

namespace Bol

/-- The nine numeric adjustment fields of `state.settings` (app.js lines 7-17). -/
structure Settings where
  exposure : ℚ
  warmth : ℚ
  contrast : ℚ
  shadows : ℚ
  highlights : ℚ
  clarity : ℚ
  vibrance : ℚ
  vignette : ℚ
  sharpness : ℚ
deriving DecidableEq

/-- The initial settings literal (app.js lines 7-17); the identical literal reappears
as `defaultSettings` inside `loadBeforeImage` (lines 211-221). -/
def defaultSettings : Settings :=
  { exposure := 1, warmth := 0, contrast := 1, shadows := 0, highlights := 0,
    clarity := 0, vibrance := 0, vignette := 0, sharpness := 1 }

/-- Names of the nine adjustment fields (the `sliders` array, app.js line 317). -/
inductive SettingsField
  | exposure | warmth | contrast | shadows | highlights | clarity | vibrance | vignette
  | sharpness
deriving DecidableEq

/-- `state.settings[name] = value` (app.js line 325): plain assignment of one field,
no transformation of the value. -/
def setField (st : Settings) (f : SettingsField) (v : ℚ) : Settings :=
  match f with
  | .exposure => { st with exposure := v }
  | .warmth => { st with warmth := v }
  | .contrast => { st with contrast := v }
  | .shadows => { st with shadows := v }
  | .highlights => { st with highlights := v }
  | .clarity => { st with clarity := v }
  | .vibrance => { st with vibrance := v }
  | .vignette => { st with vignette := v }
  | .sharpness => { st with sharpness := v }

/-- Read one field of a settings vector by name. -/
def fieldVal (st : Settings) (f : SettingsField) : ℚ :=
  match f with
  | .exposure => st.exposure
  | .warmth => st.warmth
  | .contrast => st.contrast
  | .shadows => st.shadows
  | .highlights => st.highlights
  | .clarity => st.clarity
  | .vibrance => st.vibrance
  | .vignette => st.vignette
  | .sharpness => st.sharpness

/-- One entry of `state.files` (app.js line 5): `{file_id, filename, selected}`.
Server-assigned ids are modelled as naturals. -/
structure UploadedFile where
  file_id : Nat
  filename : String
  selected : Bool
deriving DecidableEq

/-- The global mutable state of app.js (lines 4-22) plus the DOM observables the
claims refer to.  A rendered image is identified by the request that produced it:
`(file id in the URL, settings encoded in the query string)`; the file id is an
`Option` because the debounce callback interpolates `state.activeFileId` into the
URL without re-checking it for null (line 173). -/
structure AppState where
  files : List UploadedFile
  activeFileId : Option Nat
  settings : Settings
  previewDebounce : Option Nat
  compareMode : Bool
  beforeImageUrl : Option (Nat × Settings)
  afterImageUrl : Option (Option Nat × Settings)
  displayedPreview : Option (Option Nat × Settings)
  previewVisible : Bool
  comparisonVisible : Bool
  placeholderVisible : Bool
  liveTimers : List Nat
  nextTimer : Nat
  issuedFetches : List (Option Nat × Settings)
  baselineFetches : List (Nat × Settings)
deriving DecidableEq

/-- The initial state (app.js lines 4-22; the placeholder is initially shown). -/
def initState : AppState :=
  { files := [], activeFileId := none, settings := defaultSettings,
    previewDebounce := none, compareMode := false, beforeImageUrl := none,
    afterImageUrl := none, displayedPreview := none, previewVisible := false,
    comparisonVisible := false, placeholderVisible := true, liveTimers := [],
    nextTimer := 0, issuedFetches := [], baselineFetches := [] }

/-- `updatePreview` (app.js lines 161-204), scheduling part: return early when no
file is active; otherwise `clearTimeout` the timer id stored in
`state.previewDebounce` (a no-op if that timer already fired) and schedule a fresh
300 ms timer, remembering its id.  The body of the timer callback is the separate
event `timerFire`. -/
def updatePreview (s : AppState) : AppState :=
  if s.activeFileId.isSome then
    let live :=
      match s.previewDebounce with
      | some t => s.liveTimers.erase t
      | none => s.liveTimers
    { s with liveTimers := live ++ [s.nextTimer],
             previewDebounce := some s.nextTimer,
             nextTimer := s.nextTimer + 1 }
  else s

/-- The debounce timer callback firing (app.js lines 169-177 up to the `fetch`):
only a still-live timer can fire; it issues one preview fetch for the *current*
`state.activeFileId` and `state.settings` (the closure reads them at fire time). -/
def fireTimer (s : AppState) (t : Nat) : AppState :=
  if t ∈ s.liveTimers then
    { s with liveTimers := s.liveTimers.erase t,
             issuedFetches := s.issuedFetches ++ [(s.activeFileId, s.settings)] }
  else s

/-- `loadBeforeImage` (app.js lines 207-235), with the fetch outcome supplied as
`ok`: early return when no file is active; otherwise fetch the active file rendered
under the literal `defaultSettings`, and on success cache the result in
`state.beforeImageUrl`.  On failure only `console.error` runs (no state change). -/
def loadBeforeImage (s : AppState) (ok : Bool) : AppState :=
  match s.activeFileId with
  | none => s
  | some fid =>
      let s1 := { s with baselineFetches := s.baselineFetches ++ [(fid, defaultSettings)] }
      if ok then { s1 with beforeImageUrl := some (fid, defaultSettings) } else s1

/-- `updateComparisonView` (app.js lines 299-313): visibility of the single preview
image versus the comparison container (the 50% slider reset is a pixel concern not
modelled). -/
def updateComparisonView (s : AppState) : AppState :=
  if s.compareMode && s.activeFileId.isSome then
    { s with previewVisible := false, comparisonVisible := true }
  else if s.activeFileId.isSome then
    { s with comparisonVisible := false, previewVisible := true }
  else
    { s with comparisonVisible := false }

/-- Resolution of preview fetch number `i` (app.js lines 177-197): on a non-ok
response nothing happens; on an ok response the blob unconditionally becomes the
preview image and the comparison "after" image, the placeholder is hidden, and —
if compare mode is on and no baseline is cached — `loadBeforeImage` is awaited
(its fetch outcome is `bOk`); finally `updateComparisonView` runs. -/
def previewArrive (s : AppState) (i : Nat) (ok : Bool) (bOk : Bool) : AppState :=
  match s.issuedFetches[i]? with
  | none => s
  | some req =>
      if ok then
        let s1 := { s with displayedPreview := some req,
                           previewVisible := !s.compareMode,
                           placeholderVisible := false,
                           afterImageUrl := some req }
        let s2 := if s1.compareMode && s1.beforeImageUrl.isNone
                  then loadBeforeImage s1 bOk else s1
        updateComparisonView s2
      else s

/-- `selectFile` (app.js lines 153-158): set the active file, drop the cached
before image, and call `updatePreview` (the `updateFileList` call is pure
rendering). -/
def selectFile (s : AppState) (fid : Nat) : AppState :=
  updatePreview { s with activeFileId := some fid, beforeImageUrl := none }

/-- Success path of `uploadFile` (app.js lines 133-143): append the new file with
`selected = true`; if no file was active, auto-select the new one. -/
def uploadOk (s : AppState) (fid : Nat) (nm : String) : AppState :=
  let s1 := { s with files := s.files ++ [⟨fid, nm, true⟩] }
  if s1.activeFileId.isSome then s1 else selectFile s1 fid

/-- A slider `input` event (app.js lines 323-328): store `parseFloat(slider.value)`
into the named settings field verbatim and call `updatePreview` (the two-decimal
text display shows the same stored value). -/
def sliderInput (s : AppState) (f : SettingsField) (v : ℚ) : AppState :=
  updatePreview { s with settings := setField s.settings f v }

/-- Outcome of a preset / defaults fetch (app.js lines 351-352 and 364-365):
either the awaited chain threw (network failure, or a body that fails JSON
parsing), or a response arrived with some HTTP ok-status and a JSON body.  The
source never reads `response.ok` here, so the status is carried but never
inspected; the parsed body — whatever the status — is modelled as the settings
snapshot it is spread into `state.settings` as. -/
inductive PresetOutcome
  | threw (msg : String)
  | response (ok : Bool) (preset : Settings)

/-- Completion of a preset / reset button fetch (app.js lines 349-372): on *any*
response whose body parses as JSON — the HTTP status is never checked —
`state.settings = { ...preset }` replaces the whole vector in one assignment,
then sliders are re-rendered and `updatePreview` runs; only when the fetch or
the JSON parse throws does `console.error` run, and nothing changes. -/
def presetClick (s : AppState) (r : PresetOutcome) : AppState :=
  match r with
  | .response _ p => updatePreview { s with settings := p }
  | .threw _ => s

/-- The compare-toggle `change` handler (app.js lines 244-257), with the baseline
fetch outcome supplied as `bOk`: record the checkbox state; when turning compare
mode on with an active file and no cached baseline, await `loadBeforeImage`; then
`updateComparisonView`. -/
def compareToggle (s : AppState) (checked : Bool) (bOk : Bool) : AppState :=
  let s1 := { s with compareMode := checked }
  let s2 := if checked && s1.activeFileId.isSome && s1.beforeImageUrl.isNone
            then loadBeforeImage s1 bOk else s1
  updateComparisonView s2

/-- `deleteFile` (app.js lines 530-551), with the DELETE fetch outcome as `netOk`
(on a thrown fetch the `catch` only logs and no state changes): filter the file
out of the registry; if it was the active file, fall back to the first remaining
file (or null), drop the baseline cache, and either `updatePreview` or hide both
preview and comparison and show the placeholder. -/
def deleteFile (s : AppState) (fid : Nat) (netOk : Bool) : AppState :=
  if netOk then
    let files2 := s.files.filter (fun f => f.file_id != fid)
    if s.activeFileId = some fid then
      match files2.head? with
      | some f0 =>
          updatePreview { s with files := files2, activeFileId := some f0.file_id,
                                 beforeImageUrl := none }
      | none =>
          { s with files := files2, activeFileId := none, beforeImageUrl := none,
                   previewVisible := false, comparisonVisible := false,
                   placeholderVisible := true }
    else
      { s with files := files2 }
  else s

/-- A file checkbox `change` event (app.js lines 515-519): set that file's
`selected` flag. -/
def setSelected (s : AppState) (fid : Nat) (b : Bool) : AppState :=
  { s with files := s.files.map (fun f => if f.file_id = fid then { f with selected := b } else f) }

/-- The Select All button (app.js lines 375-379): deselect all iff all are
currently selected, else select all. -/
def toggleSelectAll (s : AppState) : AppState :=
  let allSel := s.files.all (fun f => f.selected)
  { s with files := s.files.map (fun f => { f with selected := !allSel }) }

/-- One event of the client: each constructor is one handler of app.js (or the
resolution of one asynchronous boundary inside a handler). -/
inductive Event
  | uploadOk (fid : Nat) (nm : String)
  | uploadErr (msg : String)
  | selectFile (fid : Nat)
  | sliderInput (f : SettingsField) (v : ℚ)
  | presetResult (r : PresetOutcome)
  | timerFire (t : Nat)
  | previewArrive (i : Nat) (ok : Bool) (bOk : Bool)
  | compareToggle (checked : Bool) (bOk : Bool)
  | deleteFile (fid : Nat) (netOk : Bool)
  | checkboxChange (fid : Nat) (b : Bool)
  | toggleSelectAll

/-- The step function: dispatch an event to the corresponding handler.  The upload
failure path (app.js lines 144-148) only calls `alert` and changes no state. -/
def step (s : AppState) : Event → AppState
  | .uploadOk fid nm => uploadOk s fid nm
  | .uploadErr _ => s
  | .selectFile fid => selectFile s fid
  | .sliderInput f v => sliderInput s f v
  | .presetResult r => presetClick s r
  | .timerFire t => fireTimer s t
  | .previewArrive i ok bOk => previewArrive s i ok bOk
  | .compareToggle c bOk => compareToggle s c bOk
  | .deleteFile fid netOk => deleteFile s fid netOk
  | .checkboxChange fid b => setSelected s fid b
  | .toggleSelectAll => toggleSelectAll s

/-- Run a list of events. -/
def run (s : AppState) (es : List Event) : AppState :=
  es.foldl step s

/-- Events whose triggering UI controls only exist for files currently rendered in
the file list: `updateFileList` (app.js lines 490-527) re-renders the list on every
registry mutation, so the id captured by a filename click, checkbox, or delete
button is the id of a file present in `state.files`. -/
def EventValid (s : AppState) : Event → Prop
  | .selectFile fid => fid ∈ s.files.map (fun f => f.file_id)
  | .deleteFile fid _ => fid ∈ s.files.map (fun f => f.file_id)
  | .checkboxChange fid _ => fid ∈ s.files.map (fun f => f.file_id)
  | _ => True

/-- A trace each of whose events is valid in the state it fires from. -/
def ValidTrace : AppState → List Event → Prop
  | _, [] => True
  | s, e :: es => EventValid s e ∧ ValidTrace (step s e) es

/-- The active file is null or a registry member (spec §3 invariant). -/
def ActiveInv (s : AppState) : Prop :=
  s.activeFileId = none ∨ ∃ f, f ∈ s.files ∧ s.activeFileId = some f.file_id

/-- At most one debounce timer is live, and a live timer is the one recorded in
`state.previewDebounce`. -/
def TimerInv (s : AppState) : Prop :=
  s.liveTimers = [] ∨ ∃ t, s.previewDebounce = some t ∧ s.liveTimers = [t]

/-- Every baseline fetch ever issued used the fixed default settings snapshot. -/
def BaselineInv (s : AppState) : Prop :=
  ∀ p ∈ s.baselineFetches, p.2 = defaultSettings

/-- Modelled from the spec: §4.2 "set(field, value) clamped to that field's valid
range", nearest-boundary clamping.  The numeric ranges themselves are declared in
the HTML slider markup, which is not part of this source file, so the clamp is
stated for arbitrary bounds. -/
def spec_clamp (lo hi v : ℚ) : ℚ :=
  max lo (min v hi)

/- ---------------------------------------------------------------------------
Batch export monitor (app.js lines 413-487).
--------------------------------------------------------------------------- -/

/-- One entry of the final result list (app.js lines 475-486). -/
structure FileResult where
  filename : String
  success : Bool
  download_url : Option String
deriving DecidableEq

/-- One parsed SSE message (app.js line 444): `{current, total, current_file,
status, done, error, results}`. -/
structure ProgressEvent where
  current : Nat
  total : Nat
  current_file : Option String
  status : Option String
  done : Bool
  error : Option String
  results : List FileResult
deriving DecidableEq

/-- Observable state of one batch job's monitoring (app.js lines 413-487):
whether the `EventSource` has been closed, the `alert`s shown, visibility of the
progress and download sections, the last progress pair written to the progress
bar, and the result list handed to `showDownloadResults`. -/
structure MonitorState where
  closed : Bool
  alerts : List String
  progressVisible : Bool
  downloadVisible : Bool
  lastProgress : Option (Nat × Nat)
  results : Option (List FileResult)
deriving DecidableEq

/-- Monitor state right after `monitorBatchProgress` is entered: the progress
section was made visible by `startBatchExport` (line 414) and the subscription is
open. -/
def initMonitor : MonitorState :=
  { closed := false, alerts := [], progressVisible := true, downloadVisible := false,
    lastProgress := none, results := none }

/-- The `onmessage` handler (app.js lines 443-464).  The leading `closed` guard
embeds the EventSource platform guarantee that after `close()` no further message
callbacks are dispatched — the in-source handler body is the open case.  An event
carrying `error` closes the source, alerts, hides the progress section and
returns; otherwise the progress UI is updated and, when `done`, the source is
closed and the results are shown (the progress section is *not* hidden on the
done path, as in the source). -/
def handleMessage (s : MonitorState) (e : ProgressEvent) : MonitorState :=
  if s.closed then s
  else
    match e.error with
    | some msg =>
        { s with closed := true, alerts := s.alerts ++ [msg], progressVisible := false }
    | none =>
        let s1 := { s with lastProgress := some (e.current, e.total) }
        if e.done then
          { s1 with closed := true, downloadVisible := true, results := some e.results }
        else s1

/-- The `onerror` handler (app.js lines 466-468): a transport-level error signal
just closes the source; nothing else happens. -/
def handleTransportError (s : MonitorState) : MonitorState :=
  if s.closed then s else { s with closed := true }

/-- A channel-side occurrence for one job: an in-band message or a
transport-level error signal. -/
inductive BatchEvent
  | message (e : ProgressEvent)
  | transportError

/-- Dispatch one channel occurrence. -/
def batchStep (s : MonitorState) : BatchEvent → MonitorState
  | .message e => handleMessage s e
  | .transportError => handleTransportError s

/-- Process a list of channel occurrences in delivery order. -/
def runBatch (s : MonitorState) (es : List BatchEvent) : MonitorState :=
  es.foldl batchStep s

/-- Outcome of the `/batch/start` fetch in `startBatchExport` (app.js lines
420-431): either the awaited chain threw (network failure or a body that is not
JSON), or a response arrived with some HTTP ok-status and the `batch_id` field of
its parsed body (absent when the body has no such field).  The source never reads
`response.ok` here. -/
inductive StartOutcome
  | threw (msg : String)
  | response (ok : Bool) (batch_id : Option Nat)

/-- Observable effects of one `startBatchExport` call (app.js lines 413-437):
the UI sections it toggles, the `alert`s it shows, and whether
`monitorBatchProgress` was invoked and with which job id. -/
structure StartEffects where
  progressVisible : Bool
  downloadVisible : Bool
  alerts : List String
  subscriptionOpened : Option (Option Nat)
deriving DecidableEq

/-- `startBatchExport` (app.js lines 413-437): show the progress section, hide the
download section; on a thrown fetch alert and hide the progress section again,
opening no subscription; on any response — the HTTP status is never examined —
call `monitorBatchProgress(batch_id)` with the body's `batch_id` field. -/
def startBatchExport (o : StartOutcome) : StartEffects :=
  match o with
  | .threw msg =>
      { progressVisible := false, downloadVisible := false,
        alerts := ["Batch export failed: " ++ msg], subscriptionOpened := none }
  | .response _ bid =>
      { progressVisible := true, downloadVisible := false,
        alerts := [], subscriptionOpened := some bid }

/-- Invariant of the batch monitor: while the subscription is open no alert has
been shown and no results were materialized, and an error alert (the Failed
outcome) never coexists with a materialized result list (the Complete outcome). -/
def MonInv (s : MonitorState) : Prop :=
  (s.closed = false → s.results = none ∧ s.alerts = []) ∧
  ¬(s.results.isSome ∧ s.alerts ≠ [])

/-- A burst of slider mutations as events. -/
def sliderEvents (muts : List (SettingsField × ℚ)) : List Event :=
  muts.map (fun m => Event.sliderInput m.1 m.2)

/-- The settings vector after applying a burst of per-field mutations in order. -/
def applyMuts (st : Settings) (muts : List (SettingsField × ℚ)) : Settings :=
  muts.foldl (fun acc m => setField acc m.1 m.2) st

/- ---------------------------------------------------------------------------
Concrete states and traces used below to evaluate the model.
--------------------------------------------------------------------------- -/

/-- A state with a single uploaded, active file (id 1). -/
def sOneActive : AppState :=
  { initState with files := [⟨1, "a", true⟩], activeFileId := some 1 }

/-- Two settings mutations, each followed by its debounce timer firing, then the
two responses arriving in the *opposite* order: the response of the first-issued
fetch (token 0) arrives after the response of the second-issued fetch (token 1)
was already accepted. -/
def traceC1 : List Event :=
  [ .sliderInput .exposure 2, .timerFire 0, .sliderInput .exposure 3, .timerFire 1,
    .previewArrive 1 true true, .previewArrive 0 true true ]

/-- A state with two uploaded files, file 1 active. -/
def sTwoFiles : AppState :=
  { initState with files := [⟨1, "a", true⟩, ⟨2, "b", true⟩], activeFileId := some 1 }

/-- `sOneActive` with a cached baseline image for file 1. -/
def sCachedBaseline : AppState :=
  { sOneActive with beforeImageUrl := some (1, defaultSettings) }

/-- A preset snapshot carrying a wildly out-of-range exposure value. -/
def pHuge : Settings :=
  { defaultSettings with exposure := 1000 }

/-- A state with one issued preview fetch for file 1 under default settings. -/
def sOneFetch : AppState :=
  { sOneActive with issuedFetches := [(some 1, defaultSettings)] }

/-- A progress event carrying an in-band error. -/
def evError : ProgressEvent :=
  { current := 1, total := 3, current_file := none, status := none, done := false,
    error := some "boom", results := [] }

/-- A terminal progress event (`done = true`) with one successful result. -/
def evDone : ProgressEvent :=
  { current := 3, total := 3, current_file := none, status := some "complete",
    done := true, error := none,
    results := [{ filename := "out.jpg", success := true, download_url := some "u" }] }

/- ---------------------------------------------------------------------------
Frame lemmas for the individual handlers.
--------------------------------------------------------------------------- -/

theorem updatePreview_files (s : AppState) : (updatePreview s).files = s.files := by
  unfold updatePreview; split <;> rfl

theorem updatePreview_activeFileId (s : AppState) :
    (updatePreview s).activeFileId = s.activeFileId := by
  unfold updatePreview; split <;> rfl

theorem updatePreview_settings (s : AppState) : (updatePreview s).settings = s.settings := by
  unfold updatePreview; split <;> rfl

theorem updatePreview_issuedFetches (s : AppState) :
    (updatePreview s).issuedFetches = s.issuedFetches := by
  unfold updatePreview; split <;> rfl

theorem updatePreview_baselineFetches (s : AppState) :
    (updatePreview s).baselineFetches = s.baselineFetches := by
  unfold updatePreview; split <;> rfl

theorem updatePreview_beforeImageUrl (s : AppState) :
    (updatePreview s).beforeImageUrl = s.beforeImageUrl := by
  unfold updatePreview; split <;> rfl

theorem updatePreview_displayedPreview (s : AppState) :
    (updatePreview s).displayedPreview = s.displayedPreview := by
  unfold updatePreview; split <;> rfl

theorem loadBeforeImage_files (s : AppState) (ok : Bool) :
    (loadBeforeImage s ok).files = s.files := by
  cases h : s.activeFileId <;> cases ok <;> simp [loadBeforeImage, h]

theorem loadBeforeImage_activeFileId (s : AppState) (ok : Bool) :
    (loadBeforeImage s ok).activeFileId = s.activeFileId := by
  cases h : s.activeFileId <;> cases ok <;> simp [loadBeforeImage, h]

theorem loadBeforeImage_settings (s : AppState) (ok : Bool) :
    (loadBeforeImage s ok).settings = s.settings := by
  cases h : s.activeFileId <;> cases ok <;> simp [loadBeforeImage, h]

theorem loadBeforeImage_issuedFetches (s : AppState) (ok : Bool) :
    (loadBeforeImage s ok).issuedFetches = s.issuedFetches := by
  cases h : s.activeFileId <;> cases ok <;> simp [loadBeforeImage, h]

theorem loadBeforeImage_displayedPreview (s : AppState) (ok : Bool) :
    (loadBeforeImage s ok).displayedPreview = s.displayedPreview := by
  cases h : s.activeFileId <;> cases ok <;> simp [loadBeforeImage, h]

theorem loadBeforeImage_liveTimers (s : AppState) (ok : Bool) :
    (loadBeforeImage s ok).liveTimers = s.liveTimers := by
  cases h : s.activeFileId <;> cases ok <;> simp [loadBeforeImage, h]

theorem loadBeforeImage_compareMode (s : AppState) (ok : Bool) :
    (loadBeforeImage s ok).compareMode = s.compareMode := by
  cases h : s.activeFileId <;> cases ok <;> simp [loadBeforeImage, h]

theorem updateComparisonView_files (s : AppState) :
    (updateComparisonView s).files = s.files := by
  unfold updateComparisonView
  split <;> first | rfl | (split <;> rfl)

theorem updateComparisonView_activeFileId (s : AppState) :
    (updateComparisonView s).activeFileId = s.activeFileId := by
  unfold updateComparisonView
  split <;> first | rfl | (split <;> rfl)

theorem updateComparisonView_settings (s : AppState) :
    (updateComparisonView s).settings = s.settings := by
  unfold updateComparisonView
  split <;> first | rfl | (split <;> rfl)

theorem updateComparisonView_issuedFetches (s : AppState) :
    (updateComparisonView s).issuedFetches = s.issuedFetches := by
  unfold updateComparisonView
  split <;> first | rfl | (split <;> rfl)

theorem updateComparisonView_baselineFetches (s : AppState) :
    (updateComparisonView s).baselineFetches = s.baselineFetches := by
  unfold updateComparisonView
  split <;> first | rfl | (split <;> rfl)

theorem updateComparisonView_beforeImageUrl (s : AppState) :
    (updateComparisonView s).beforeImageUrl = s.beforeImageUrl := by
  unfold updateComparisonView
  split <;> first | rfl | (split <;> rfl)

theorem updateComparisonView_displayedPreview (s : AppState) :
    (updateComparisonView s).displayedPreview = s.displayedPreview := by
  unfold updateComparisonView
  split <;> first | rfl | (split <;> rfl)

theorem updateComparisonView_liveTimers (s : AppState) :
    (updateComparisonView s).liveTimers = s.liveTimers := by
  unfold updateComparisonView
  split <;> first | rfl | (split <;> rfl)

/- ---------------------------------------------------------------------------
Debounce behaviour (claim C3).
--------------------------------------------------------------------------- -/

theorem sliderInput_step (s : AppState) (f : SettingsField) (v : ℚ)
    (ha : s.activeFileId.isSome = true) (hinv : TimerInv s) :
    (sliderInput s f v).activeFileId = s.activeFileId ∧
    (sliderInput s f v).settings = setField s.settings f v ∧
    (sliderInput s f v).issuedFetches = s.issuedFetches ∧
    (sliderInput s f v).liveTimers = [s.nextTimer] ∧
    (sliderInput s f v).previewDebounce = some s.nextTimer ∧
    (sliderInput s f v).nextTimer = s.nextTimer + 1 := by
  rcases hinv with hl | ⟨t, hd, hl⟩
  · cases hpd : s.previewDebounce <;>
      simp [sliderInput, updatePreview, ha, hl, hpd]
  · simp [sliderInput, updatePreview, ha, hd, hl]

theorem slider_run_core (muts : List (SettingsField × ℚ)) (s : AppState)
    (ha : s.activeFileId.isSome = true) (hinv : TimerInv s) (hne : muts ≠ []) :
    (run s (sliderEvents muts)).activeFileId = s.activeFileId ∧
    (run s (sliderEvents muts)).settings = applyMuts s.settings muts ∧
    (run s (sliderEvents muts)).issuedFetches = s.issuedFetches ∧
    (run s (sliderEvents muts)).liveTimers = [s.nextTimer + muts.length - 1] ∧
    (run s (sliderEvents muts)).previewDebounce = some (s.nextTimer + muts.length - 1) ∧
    (run s (sliderEvents muts)).nextTimer = s.nextTimer + muts.length := by
  induction muts generalizing s with
  | nil => exact absurd rfl hne
  | cons m rest ih =>
      obtain ⟨h1, h2, h3, h4, h5, h6⟩ := sliderInput_step s m.1 m.2 ha hinv
      have hrun : run s (sliderEvents (m :: rest))
          = run (sliderInput s m.1 m.2) (sliderEvents rest) := rfl
      by_cases hr : rest = []
      · subst hr
        refine ⟨?_, ?_, ?_, ?_, ?_, ?_⟩ <;>
          simp [run, sliderEvents, applyMuts, step, h1, h2, h3, h4, h5, h6]
      · have ha1 : (sliderInput s m.1 m.2).activeFileId.isSome = true := by
          rw [h1]; exact ha
        have hinv1 : TimerInv (sliderInput s m.1 m.2) := Or.inr ⟨s.nextTimer, h5, h4⟩
        obtain ⟨g1, g2, g3, g4, g5, g6⟩ := ih (sliderInput s m.1 m.2) ha1 hinv1 hr
        have hlen : 1 ≤ rest.length := by
          cases rest with
          | nil => exact absurd rfl hr
          | cons a b => simp
        refine ⟨?_, ?_, ?_, ?_, ?_, ?_⟩
        · rw [hrun, g1, h1]
        · rw [hrun, g2, h2]; rfl
        · rw [hrun, g3, h3]
        · rw [hrun, g4, h6]; congr 1; simp only [List.length_cons]; omega
        · rw [hrun, g5, h6]; congr 2; simp only [List.length_cons]; omega
        · rw [hrun, g6, h6]; simp only [List.length_cons]; omega

/-- Claim C3: for every sequence of N ≥ 1 settings mutations all occurring within
the debounce quiet window (no timer elapse interleaved), no fetch is issued during
the burst, each mutation cancels the previously pending timer so that exactly one
timer is live afterwards (the one allocated by the last mutation), and firing that
timer issues exactly one preview fetch, carrying the values of the last mutation. -/
theorem debounce_coalescing (s : AppState) (fid : Nat) (muts : List (SettingsField × ℚ))
    (ha : s.activeFileId = some fid) (hinv : TimerInv s) (hne : muts ≠ []) :
    (run s (sliderEvents muts)).issuedFetches = s.issuedFetches ∧
    (run s (sliderEvents muts)).liveTimers = [s.nextTimer + muts.length - 1] ∧
    (run s (sliderEvents muts)).previewDebounce = some (s.nextTimer + muts.length - 1) ∧
    (fireTimer (run s (sliderEvents muts)) (s.nextTimer + muts.length - 1)).issuedFetches
      = s.issuedFetches ++ [(some fid, applyMuts s.settings muts)] ∧
    (fireTimer (run s (sliderEvents muts)) (s.nextTimer + muts.length - 1)).liveTimers
      = [] := by
  have ha' : s.activeFileId.isSome = true := by rw [ha]; rfl
  obtain ⟨g1, g2, g3, g4, g5, g6⟩ := slider_run_core muts s ha' hinv hne
  refine ⟨g3, g4, g5, ?_, ?_⟩
  · simp [fireTimer, g4, g1, g2, g3, ha]
  · simp [fireTimer, g4]

/-- Witness for C3: one slider mutation on a fresh single-file state, followed by
the timer firing, yields exactly the one fetch carrying the mutated settings. -/
theorem debounce_coalescing_witness :
    sOneActive.activeFileId = some 1 ∧ TimerInv sOneActive ∧
    ([((SettingsField.exposure : SettingsField), (2 : ℚ))] ≠ []) ∧
    ((run sOneActive (sliderEvents [(SettingsField.exposure, 2)])).issuedFetches = [] ∧
     (run sOneActive (sliderEvents [(SettingsField.exposure, 2)])).liveTimers = [0] ∧
     (run sOneActive (sliderEvents [(SettingsField.exposure, 2)])).previewDebounce = some 0 ∧
     (fireTimer (run sOneActive (sliderEvents [(SettingsField.exposure, 2)])) 0).issuedFetches
        = [(some 1, setField defaultSettings SettingsField.exposure 2)] ∧
     (fireTimer (run sOneActive (sliderEvents [(SettingsField.exposure, 2)])) 0).liveTimers
        = []) :=
  ⟨rfl, Or.inl rfl, by decide,
    debounce_coalescing sOneActive 1 [(SettingsField.exposure, 2)] rfl (Or.inl rfl)
      (by decide)⟩

/- ---------------------------------------------------------------------------
Preview response acceptance (claim C1).
--------------------------------------------------------------------------- -/

/-- Claim C1 (amended): the code contains no sequence-token supersession.  An ok
preview response is accepted unconditionally on arrival — after the response of
issued fetch number `i` arrives ok, the displayed preview is that fetch's image,
whatever had been accepted before; the authoritative preview is thus the
last-arriving ok response, not the highest-token one. -/
theorem preview_last_arrival_wins (s : AppState) (i : Nat) (req : Option Nat × Settings)
    (bOk : Bool) (h : s.issuedFetches[i]? = some req) :
    (step s (.previewArrive i true bOk)).displayedPreview = some req := by
  show (previewArrive s i true bOk).displayedPreview = some req
  unfold previewArrive
  rw [h]
  dsimp only
  rw [if_pos rfl, updateComparisonView_displayedPreview]
  split
  · rw [loadBeforeImage_displayedPreview]
  · rfl

/-- Witness for C1's amended theorem at a concrete state with one issued fetch. -/
theorem preview_last_arrival_wins_witness :
    sOneFetch.issuedFetches[0]? = some (some 1, defaultSettings) ∧
    (step sOneFetch (.previewArrive 0 true true)).displayedPreview
      = some (some 1, defaultSettings) :=
  ⟨rfl, preview_last_arrival_wins sOneFetch 0 (some 1, defaultSettings) true rfl⟩

/-- Counterexample to claim C1 as stated: two preview fetches A (token 0, exposure
2) and B (token 1, exposure 3) are issued in that order for the same file; B's
response arrives and is accepted, then A's response arrives — and the displayed
preview becomes A's image, not B's.  The late response of the earlier request is
not discarded. -/
theorem preview_supersession_counterexample :
    (run sOneActive traceC1).issuedFetches
        = [(some 1, setField defaultSettings SettingsField.exposure 2),
           (some 1, setField defaultSettings SettingsField.exposure 3)] ∧
    (run sOneActive traceC1).displayedPreview
        = some (some 1, setField defaultSettings SettingsField.exposure 2) ∧
    setField defaultSettings SettingsField.exposure 2
        ≠ setField defaultSettings SettingsField.exposure 3 := by
  refine ⟨by decide, by decide, by decide⟩

/- ---------------------------------------------------------------------------
Baseline (before-image) cache behaviour (claim C7).
--------------------------------------------------------------------------- -/

theorem loadBeforeImage_baselineFetches_mem (s : AppState) (ok : Bool) (p : Nat × Settings)
    (hp : p ∈ (loadBeforeImage s ok).baselineFetches) :
    p ∈ s.baselineFetches ∨ p.2 = defaultSettings := by
  cases h : s.activeFileId with
  | none =>
      simp [loadBeforeImage, h] at hp
      exact Or.inl hp
  | some fid =>
      cases ok <;> simp [loadBeforeImage, h] at hp <;>
        rcases hp with hp | hp
      · exact Or.inl hp
      · exact Or.inr (by rw [hp])
      · exact Or.inl hp
      · exact Or.inr (by rw [hp])

theorem loadBeforeImage_beforeImageUrl_cases (s : AppState) (ok : Bool) :
    (loadBeforeImage s ok).beforeImageUrl = s.beforeImageUrl ∨
    ∃ x, (loadBeforeImage s ok).beforeImageUrl = some x := by
  cases h : s.activeFileId with
  | none => exact Or.inl (by simp [loadBeforeImage, h])
  | some fid =>
      cases ok
      · exact Or.inl (by simp [loadBeforeImage, h])
      · exact Or.inr ⟨(fid, defaultSettings), by simp [loadBeforeImage, h]⟩

theorem uploadOk_eq (s : AppState) (fid : Nat) (nm : String) :
    uploadOk s fid nm =
      (if s.activeFileId.isSome = true
       then { s with files := s.files ++ [⟨fid, nm, true⟩] }
       else updatePreview { s with files := s.files ++ [⟨fid, nm, true⟩],
                                   activeFileId := some fid, beforeImageUrl := none }) := by
  unfold uploadOk selectFile
  rfl

theorem previewArrive_of_none (s : AppState) (i : Nat) (ok bOk : Bool)
    (h : s.issuedFetches[i]? = none) : previewArrive s i ok bOk = s := by
  unfold previewArrive; rw [h]

theorem previewArrive_of_not_ok (s : AppState) (i : Nat) (bOk : Bool)
    (req : Option Nat × Settings) (h : s.issuedFetches[i]? = some req) :
    previewArrive s i false bOk = s := by
  unfold previewArrive; rw [h]; rfl

theorem previewArrive_of_ok (s : AppState) (i : Nat) (bOk : Bool)
    (req : Option Nat × Settings) (h : s.issuedFetches[i]? = some req) :
    previewArrive s i true bOk =
      updateComparisonView
        (if (s.compareMode && s.beforeImageUrl.isNone) = true
         then loadBeforeImage
            { s with displayedPreview := some req, previewVisible := !s.compareMode,
                     placeholderVisible := false, afterImageUrl := some req } bOk
         else { s with displayedPreview := some req, previewVisible := !s.compareMode,
                       placeholderVisible := false, afterImageUrl := some req }) := by
  unfold previewArrive; rw [h]; rfl

theorem compareToggle_eq (s : AppState) (c bOk : Bool) :
    compareToggle s c bOk =
      updateComparisonView
        (if (c && s.activeFileId.isSome && s.beforeImageUrl.isNone) = true
         then loadBeforeImage { s with compareMode := c } bOk
         else { s with compareMode := c }) := by
  unfold compareToggle
  rfl

theorem deleteFile_active_eq (s : AppState) (fid : Nat) (ha : s.activeFileId = some fid) :
    deleteFile s fid true =
      (match (s.files.filter (fun f => f.file_id != fid)).head? with
       | some f0 =>
           updatePreview { s with files := s.files.filter (fun f => f.file_id != fid),
                                  activeFileId := some f0.file_id, beforeImageUrl := none }
       | none =>
           { s with files := s.files.filter (fun f => f.file_id != fid),
                    activeFileId := none, beforeImageUrl := none,
                    previewVisible := false, comparisonVisible := false,
                    placeholderVisible := true }) := by
  unfold deleteFile
  rw [if_pos rfl, if_pos ha]

theorem deleteFile_nonactive_eq (s : AppState) (fid : Nat)
    (ha : s.activeFileId ≠ some fid) :
    deleteFile s fid true = { s with files := s.files.filter (fun f => f.file_id != fid) } := by
  unfold deleteFile
  rw [if_pos rfl, if_neg ha]

theorem uploadOk_baselineFetches (s : AppState) (fid : Nat) (nm : String) :
    (uploadOk s fid nm).baselineFetches = s.baselineFetches := by
  rw [uploadOk_eq]
  split
  · rfl
  · rw [updatePreview_baselineFetches]

theorem selectFile_baselineFetches (s : AppState) (fid : Nat) :
    (selectFile s fid).baselineFetches = s.baselineFetches := by
  unfold selectFile; rw [updatePreview_baselineFetches]

theorem fireTimer_baselineFetches (s : AppState) (t : Nat) :
    (fireTimer s t).baselineFetches = s.baselineFetches := by
  unfold fireTimer; split <;> rfl

theorem deleteFile_baselineFetches (s : AppState) (fid : Nat) (netOk : Bool) :
    (deleteFile s fid netOk).baselineFetches = s.baselineFetches := by
  cases netOk with
  | false => rfl
  | true =>
      by_cases ha : s.activeFileId = some fid
      · rw [deleteFile_active_eq s fid ha]
        split
        · rw [updatePreview_baselineFetches]
        · rfl
      · rw [deleteFile_nonactive_eq s fid ha]

theorem presetClick_baselineFetches (s : AppState) (r : PresetOutcome) :
    (presetClick s r).baselineFetches = s.baselineFetches := by
  cases r
  · rfl
  · unfold presetClick; rw [updatePreview_baselineFetches]

theorem previewArrive_baselineFetches_mem (s : AppState) (i : Nat) (ok bOk : Bool)
    (p : Nat × Settings) (hp : p ∈ (previewArrive s i ok bOk).baselineFetches) :
    p ∈ s.baselineFetches ∨ p.2 = defaultSettings := by
  cases hih : s.issuedFetches[i]? with
  | none =>
      rw [previewArrive_of_none s i ok bOk hih] at hp
      exact Or.inl hp
  | some req =>
      cases ok with
      | false =>
          rw [previewArrive_of_not_ok s i bOk req hih] at hp
          exact Or.inl hp
      | true =>
          rw [previewArrive_of_ok s i bOk req hih,
              updateComparisonView_baselineFetches] at hp
          split at hp
          · rcases loadBeforeImage_baselineFetches_mem
                { s with displayedPreview := some req, previewVisible := !s.compareMode,
                         placeholderVisible := false, afterImageUrl := some req }
                bOk p hp with hmem | hdef
            · exact Or.inl hmem
            · exact Or.inr hdef
          · exact Or.inl hp

theorem compareToggle_baselineFetches_mem (s : AppState) (c bOk : Bool)
    (p : Nat × Settings) (hp : p ∈ (compareToggle s c bOk).baselineFetches) :
    p ∈ s.baselineFetches ∨ p.2 = defaultSettings := by
  rw [compareToggle_eq, updateComparisonView_baselineFetches] at hp
  split at hp
  · rcases loadBeforeImage_baselineFetches_mem { s with compareMode := c } bOk p hp
        with hmem | hdef
    · exact Or.inl hmem
    · exact Or.inr hdef
  · exact Or.inl hp

theorem step_baselineInv (s : AppState) (e : Event) (h : BaselineInv s) :
    BaselineInv (step s e) := by
  intro p hp
  cases e with
  | uploadOk fid nm => exact h p (by rwa [step, uploadOk_baselineFetches] at hp)
  | uploadErr msg => exact h p hp
  | selectFile fid => exact h p (by rwa [step, selectFile_baselineFetches] at hp)
  | sliderInput f v =>
      exact h p (by rwa [step, sliderInput, updatePreview_baselineFetches] at hp)
  | presetResult r => exact h p (by rwa [step, presetClick_baselineFetches] at hp)
  | timerFire t => exact h p (by rwa [step, fireTimer_baselineFetches] at hp)
  | previewArrive i ok bOk =>
      rcases previewArrive_baselineFetches_mem s i ok bOk p hp with hmem | hdef
      · exact h p hmem
      · exact hdef
  | compareToggle c bOk =>
      rcases compareToggle_baselineFetches_mem s c bOk p hp with hmem | hdef
      · exact h p hmem
      · exact hdef
  | deleteFile fid netOk => exact h p (by rwa [step, deleteFile_baselineFetches] at hp)
  | checkboxChange fid b => exact h p hp
  | toggleSelectAll => exact h p hp

theorem step_uploadOk (s : AppState) (fid : Nat) (nm : String) :
    step s (.uploadOk fid nm) = uploadOk s fid nm := rfl

theorem step_selectFile (s : AppState) (fid : Nat) :
    step s (.selectFile fid) = selectFile s fid := rfl

theorem step_sliderInput (s : AppState) (f : SettingsField) (v : ℚ) :
    step s (.sliderInput f v) = sliderInput s f v := rfl

theorem step_presetResult (s : AppState) (r : PresetOutcome) :
    step s (.presetResult r) = presetClick s r := rfl

theorem step_timerFire (s : AppState) (t : Nat) :
    step s (.timerFire t) = fireTimer s t := rfl

theorem step_previewArrive (s : AppState) (i : Nat) (ok bOk : Bool) :
    step s (.previewArrive i ok bOk) = previewArrive s i ok bOk := rfl

theorem step_compareToggle (s : AppState) (c bOk : Bool) :
    step s (.compareToggle c bOk) = compareToggle s c bOk := rfl

theorem step_deleteFile (s : AppState) (fid : Nat) (netOk : Bool) :
    step s (.deleteFile fid netOk) = deleteFile s fid netOk := rfl

theorem updateComparisonView_compareMode (s : AppState) :
    (updateComparisonView s).compareMode = s.compareMode := by
  unfold updateComparisonView
  split <;> first | rfl | (split <;> rfl)

theorem fireTimer_beforeImageUrl (s : AppState) (t : Nat) :
    (fireTimer s t).beforeImageUrl = s.beforeImageUrl := by
  unfold fireTimer; split <;> rfl

theorem loadBeforeImage_of_some (s : AppState) (ok : Bool) (fid : Nat)
    (h : s.activeFileId = some fid) :
    loadBeforeImage s ok =
      (if ok then { s with baselineFetches := s.baselineFetches ++ [(fid, defaultSettings)],
                           beforeImageUrl := some (fid, defaultSettings) }
       else { s with baselineFetches := s.baselineFetches ++ [(fid, defaultSettings)] }) := by
  unfold loadBeforeImage
  rw [h]

theorem compareToggle_no_fetch (s : AppState) (c bOk : Bool)
    (h : (c && s.activeFileId.isSome && s.beforeImageUrl.isNone) = false) :
    (compareToggle s c bOk).baselineFetches = s.baselineFetches ∧
    (compareToggle s c bOk).beforeImageUrl = s.beforeImageUrl ∧
    (compareToggle s c bOk).activeFileId = s.activeFileId := by
  have h' : ¬ ((c && s.activeFileId.isSome && s.beforeImageUrl.isNone) = true) := by
    rw [h]; exact Bool.false_ne_true
  rw [compareToggle_eq, if_neg h']
  exact ⟨updateComparisonView_baselineFetches _, updateComparisonView_beforeImageUrl _,
         updateComparisonView_activeFileId _⟩

theorem compareToggle_fetch_ok (s : AppState) (fid : Nat)
    (ha : s.activeFileId = some fid) (hb : s.beforeImageUrl = none) :
    (compareToggle s true true).baselineFetches
        = s.baselineFetches ++ [(fid, defaultSettings)] ∧
    (compareToggle s true true).beforeImageUrl = some (fid, defaultSettings) ∧
    (compareToggle s true true).activeFileId = some fid := by
  have hcond : (true && s.activeFileId.isSome && s.beforeImageUrl.isNone) = true := by
    rw [ha, hb]; rfl
  rw [compareToggle_eq, if_pos hcond,
      loadBeforeImage_of_some { s with compareMode := true } true fid ha, if_pos rfl]
  exact ⟨updateComparisonView_baselineFetches _,
         by rw [updateComparisonView_beforeImageUrl],
         by rw [updateComparisonView_activeFileId]; exact ha⟩

theorem previewArrive_beforeImageUrl_cases (s : AppState) (i : Nat) (ok bOk : Bool) :
    (previewArrive s i ok bOk).beforeImageUrl = s.beforeImageUrl ∨
    ∃ x, (previewArrive s i ok bOk).beforeImageUrl = some x := by
  cases hih : s.issuedFetches[i]? with
  | none => rw [previewArrive_of_none s i ok bOk hih]; exact Or.inl rfl
  | some req =>
      cases ok with
      | false => rw [previewArrive_of_not_ok s i bOk req hih]; exact Or.inl rfl
      | true =>
          rw [previewArrive_of_ok s i bOk req hih, updateComparisonView_beforeImageUrl]
          split
          · rcases loadBeforeImage_beforeImageUrl_cases _ bOk with h | ⟨x, h⟩
            · exact Or.inl h
            · exact Or.inr ⟨x, h⟩
          · exact Or.inl rfl

theorem compareToggle_beforeImageUrl_cases (s : AppState) (c bOk : Bool) :
    (compareToggle s c bOk).beforeImageUrl = s.beforeImageUrl ∨
    ∃ x, (compareToggle s c bOk).beforeImageUrl = some x := by
  rw [compareToggle_eq, updateComparisonView_beforeImageUrl]
  split
  · rcases loadBeforeImage_beforeImageUrl_cases _ bOk with h | ⟨x, h⟩
    · exact Or.inl h
    · exact Or.inr ⟨x, h⟩
  · exact Or.inl rfl

theorem cache_clear_classification (s : AppState) (e : Event)
    (hb : s.beforeImageUrl ≠ none) (h : (step s e).beforeImageUrl = none) :
    (∃ fid, e = .selectFile fid) ∨
    (∃ fid, e = .deleteFile fid true ∧ s.activeFileId = some fid) ∨
    (∃ fid nm, e = .uploadOk fid nm ∧ s.activeFileId = none) := by
  cases e with
  | uploadOk fid nm =>
      have h' : (uploadOk s fid nm).beforeImageUrl = none := h
      rw [uploadOk_eq] at h'
      by_cases hA : s.activeFileId.isSome = true
      · rw [if_pos hA] at h'
        exact absurd h' hb
      · refine Or.inr (Or.inr ⟨fid, nm, rfl, ?_⟩)
        cases hA2 : s.activeFileId with
        | none => rfl
        | some x => rw [hA2] at hA; exact absurd rfl hA
  | uploadErr msg => exact absurd h hb
  | selectFile fid => exact Or.inl ⟨fid, rfl⟩
  | sliderInput f v =>
      have h' : (updatePreview { s with settings := setField s.settings f v }).beforeImageUrl
          = none := h
      rw [updatePreview_beforeImageUrl] at h'
      exact absurd h' hb
  | presetResult r =>
      cases r with
      | response hok p =>
          have h' : (updatePreview { s with settings := p }).beforeImageUrl = none := h
          rw [updatePreview_beforeImageUrl] at h'
          exact absurd h' hb
      | threw msg => exact absurd h hb
  | timerFire t =>
      have h' : (fireTimer s t).beforeImageUrl = none := h
      rw [fireTimer_beforeImageUrl] at h'
      exact absurd h' hb
  | previewArrive i ok bOk =>
      have h' : (previewArrive s i ok bOk).beforeImageUrl = none := h
      rcases previewArrive_beforeImageUrl_cases s i ok bOk with hc | ⟨x, hc⟩
      · rw [hc] at h'; exact absurd h' hb
      · rw [hc] at h'; exact absurd h' (Option.some_ne_none x)
  | compareToggle c bOk =>
      have h' : (compareToggle s c bOk).beforeImageUrl = none := h
      rcases compareToggle_beforeImageUrl_cases s c bOk with hc | ⟨x, hc⟩
      · rw [hc] at h'; exact absurd h' hb
      · rw [hc] at h'; exact absurd h' (Option.some_ne_none x)
  | deleteFile fid netOk =>
      cases netOk with
      | false => exact absurd h hb
      | true =>
          by_cases hA : s.activeFileId = some fid
          · exact Or.inr (Or.inl ⟨fid, rfl, hA⟩)
          · have h' : (deleteFile s fid true).beforeImageUrl = none := h
            rw [deleteFile_nonactive_eq s fid hA] at h'
            exact absurd h' hb
  | checkboxChange fid b => exact absurd h hb
  | toggleSelectAll => exact absurd h hb

/-- Claim C7 (amended): every baseline fetch carries the fixed default settings
snapshot, independent of the current adjustment vector; entering compare mode with
an active file and no cached baseline issues exactly one baseline fetch — for the
active file under defaults — and on success caches it, so toggling compare mode
off and on again issues no further fetch; and the cache is invalidated exactly by
the file-selection and delete-active-file operations (plus the auto-select of a
first upload): re-selecting the *already-active* file also clears the cache, so
invalidation is not limited to changes of the active file, but no settings change,
preset application, compare toggle, or other operation ever invalidates it. -/
theorem baseline_cache_behavior :
    (∀ s e, BaselineInv s → BaselineInv (step s e)) ∧
    (∀ (s : AppState) (fid : Nat) (b1 b2 : Bool),
       s.activeFileId = some fid → s.beforeImageUrl = none →
       (step s (.compareToggle true true)).baselineFetches
           = s.baselineFetches ++ [(fid, defaultSettings)] ∧
       (step s (.compareToggle true true)).beforeImageUrl = some (fid, defaultSettings) ∧
       (run s [.compareToggle true true, .compareToggle false b1,
               .compareToggle true b2]).baselineFetches
           = s.baselineFetches ++ [(fid, defaultSettings)]) ∧
    (∀ s e, s.beforeImageUrl ≠ none → (step s e).beforeImageUrl = none →
       (∃ fid, e = .selectFile fid) ∨
       (∃ fid, e = .deleteFile fid true ∧ s.activeFileId = some fid) ∨
       (∃ fid nm, e = .uploadOk fid nm ∧ s.activeFileId = none)) := by
  refine ⟨step_baselineInv, ?_, cache_clear_classification⟩
  intro s fid b1 b2 ha hb
  obtain ⟨f1, f2, f3⟩ := compareToggle_fetch_ok s fid ha hb
  refine ⟨f1, f2, ?_⟩
  have e1 : run s [.compareToggle true true, .compareToggle false b1, .compareToggle true b2]
      = compareToggle (compareToggle (compareToggle s true true) false b1) true b2 := rfl
  rw [e1]
  obtain ⟨g1, g2, g3⟩ :=
    compareToggle_no_fetch (compareToggle s true true) false b1 rfl
  have hcond3 : (true && (compareToggle (compareToggle s true true) false b1).activeFileId.isSome
      && (compareToggle (compareToggle s true true) false b1).beforeImageUrl.isNone) = false := by
    rw [g2, f2]
    simp
  obtain ⟨k1, k2, k3⟩ :=
    compareToggle_no_fetch (compareToggle (compareToggle s true true) false b1) true b2 hcond3
  rw [k1, g1, f1]

/-- Witness for C7's amended theorem: concrete single-file state, baseline invariant
preserved across a toggle, the toggle-on/off/on scenario, and a concrete cache
invalidation classified. -/
theorem baseline_cache_behavior_witness :
    (BaselineInv sOneActive → BaselineInv (step sOneActive (.compareToggle true true))) ∧
    ((step sOneActive (.compareToggle true true)).baselineFetches = [(1, defaultSettings)] ∧
     (step sOneActive (.compareToggle true true)).beforeImageUrl = some (1, defaultSettings) ∧
     (run sOneActive [.compareToggle true true, .compareToggle false false,
                      .compareToggle true false]).baselineFetches = [(1, defaultSettings)]) ∧
    ((∃ fid, (Event.selectFile 1) = .selectFile fid) ∨
     (∃ fid, (Event.selectFile 1) = .deleteFile fid true
        ∧ sCachedBaseline.activeFileId = some fid) ∨
     (∃ fid nm, (Event.selectFile 1) = .uploadOk fid nm
        ∧ sCachedBaseline.activeFileId = none)) :=
  ⟨fun h => baseline_cache_behavior.1 sOneActive (.compareToggle true true) h,
   baseline_cache_behavior.2.1 sOneActive 1 false false rfl rfl,
   baseline_cache_behavior.2.2 sCachedBaseline (.selectFile 1)
     (by simp [sCachedBaseline, sOneActive]) (by decide)⟩

/-- Counterexample to claim C7 as stated ("the cache is invalidated only when the
active file changes"): clicking the filename of the *already-active* file calls
`selectFile` with the same id, which clears the cached baseline while the active
file stays the same. -/
theorem baseline_cache_reselect_counterexample :
    sCachedBaseline.activeFileId = some 1 ∧
    sCachedBaseline.beforeImageUrl = some (1, defaultSettings) ∧
    (step sCachedBaseline (.selectFile 1)).activeFileId = some 1 ∧
    (step sCachedBaseline (.selectFile 1)).beforeImageUrl = none := by
  refine ⟨rfl, rfl, by decide, by decide⟩

/- ---------------------------------------------------------------------------
Batch monitor (claims C4, C5, C6).
--------------------------------------------------------------------------- -/

theorem batchStep_closed (s : MonitorState) (e : BatchEvent) (h : s.closed = true) :
    batchStep s e = s := by
  cases e with
  | message ev =>
      show handleMessage s ev = s
      unfold handleMessage
      rw [if_pos h]
  | transportError =>
      show handleTransportError s = s
      unfold handleTransportError
      rw [if_pos h]

theorem handleMessage_open_error (s : MonitorState) (e : ProgressEvent) (msg : String)
    (hc : s.closed = false) (he : e.error = some msg) :
    handleMessage s e = { s with closed := true, alerts := s.alerts ++ [msg],
                                 progressVisible := false } := by
  unfold handleMessage
  rw [hc, he]
  rfl

theorem handleMessage_open_done (s : MonitorState) (e : ProgressEvent)
    (hc : s.closed = false) (he : e.error = none) (hd : e.done = true) :
    handleMessage s e = { s with lastProgress := some (e.current, e.total),
                                 closed := true, downloadVisible := true,
                                 results := some e.results } := by
  unfold handleMessage
  rw [hc, he, hd]
  rfl

theorem handleMessage_open_progress (s : MonitorState) (e : ProgressEvent)
    (hc : s.closed = false) (he : e.error = none) (hd : e.done = false) :
    handleMessage s e = { s with lastProgress := some (e.current, e.total) } := by
  unfold handleMessage
  rw [hc, he, hd]
  rfl

theorem handleTransportError_open (s : MonitorState) (hc : s.closed = false) :
    handleTransportError s = { s with closed := true } := by
  unfold handleTransportError
  rw [hc]
  rfl

theorem monInv_step (s : MonitorState) (e : BatchEvent) (h : MonInv s) :
    MonInv (batchStep s e) := by
  obtain ⟨h1, h2⟩ := h
  cases e with
  | transportError =>
      cases hc : s.closed with
      | true => rw [batchStep_closed s _ hc]; exact ⟨h1, h2⟩
      | false =>
          show MonInv (handleTransportError s)
          rw [handleTransportError_open s hc]
          exact ⟨fun hq => by simp at hq, h2⟩
  | message ev =>
      cases hc : s.closed with
      | true => rw [batchStep_closed s _ hc]; exact ⟨h1, h2⟩
      | false =>
          obtain ⟨hr, ha⟩ := h1 hc
          show MonInv (handleMessage s ev)
          cases he : ev.error with
          | some msg =>
              rw [handleMessage_open_error s ev msg hc he]
              refine ⟨fun hq => by simp at hq, ?_⟩
              rintro ⟨hres, _⟩
              rw [hr] at hres
              simp at hres
          | none =>
              cases hd : ev.done with
              | true =>
                  rw [handleMessage_open_done s ev hc he hd]
                  refine ⟨fun hq => by simp at hq, ?_⟩
                  rintro ⟨_, hal⟩
                  rw [ha] at hal
                  exact hal rfl
              | false =>
                  rw [handleMessage_open_progress s ev hc he hd]
                  refine ⟨fun _ => ⟨hr, ha⟩, ?_⟩
                  rintro ⟨hres, _⟩
                  rw [hr] at hres
                  simp at hres

theorem monInv_runBatch (es : List BatchEvent) (s : MonitorState) (h : MonInv s) :
    MonInv (runBatch s es) := by
  induction es generalizing s with
  | nil => exact h
  | cons e es ih => exact ih (batchStep s e) (monInv_step s e h)

/-- Claim C4: one batch job reaches at most one terminal outcome — an error alert
(Failed) and a materialized result list (Complete) never coexist over any event
sequence; once the subscription is closed every further channel event is ignored
(the terminal transition closes it); an in-band error event closes immediately,
alerts and touches no results; a `done` event closes and materializes the results. -/
theorem batch_terminal_exclusivity :
    (∀ es : List BatchEvent,
        ¬((runBatch initMonitor es).results.isSome
            ∧ (runBatch initMonitor es).alerts ≠ [])) ∧
    (∀ (s : MonitorState) (e : BatchEvent), s.closed = true → batchStep s e = s) ∧
    (∀ (s : MonitorState) (ev : ProgressEvent) (msg : String),
        s.closed = false → ev.error = some msg →
        (handleMessage s ev).closed = true ∧
        (handleMessage s ev).alerts = s.alerts ++ [msg] ∧
        (handleMessage s ev).results = s.results) ∧
    (∀ (s : MonitorState) (ev : ProgressEvent),
        s.closed = false → ev.error = none → ev.done = true →
        (handleMessage s ev).closed = true ∧
        (handleMessage s ev).results = some ev.results) := by
  refine ⟨?_, batchStep_closed, ?_, ?_⟩
  · intro es
    have hinit : MonInv initMonitor := by
      refine ⟨fun _ => ⟨rfl, rfl⟩, ?_⟩
      rintro ⟨h1, _⟩
      simp [initMonitor] at h1
    exact (monInv_runBatch es initMonitor hinit).2
  · intro s ev msg hc he
    rw [handleMessage_open_error s ev msg hc he]
    exact ⟨rfl, rfl, rfl⟩
  · intro s ev hc he hd
    rw [handleMessage_open_done s ev hc he hd]
    exact ⟨rfl, rfl⟩

/-- Witness for C4 at concrete inputs: an error event followed by a done event
yields Failed only; the concrete error and done events behave as stated. -/
theorem batch_terminal_exclusivity_witness :
    ¬((runBatch initMonitor [.message evError, .message evDone]).results.isSome
        ∧ (runBatch initMonitor [.message evError, .message evDone]).alerts ≠ []) ∧
    batchStep (handleTransportError initMonitor) (.message evDone)
        = handleTransportError initMonitor ∧
    ((handleMessage initMonitor evError).closed = true ∧
     (handleMessage initMonitor evError).alerts = ["boom"] ∧
     (handleMessage initMonitor evError).results = none) ∧
    ((handleMessage initMonitor evDone).closed = true ∧
     (handleMessage initMonitor evDone).results = some evDone.results) :=
  ⟨batch_terminal_exclusivity.1 [.message evError, .message evDone],
   batch_terminal_exclusivity.2.1 (handleTransportError initMonitor) (.message evDone) rfl,
   batch_terminal_exclusivity.2.2.1 initMonitor evError "boom" rfl rfl,
   batch_terminal_exclusivity.2.2.2 initMonitor evDone rfl rfl rfl⟩

/-- Counterexample to claim C5 as stated: a transport-level error signal from the
channel tears the subscription down but reports nothing to the user — no alert is
shown, and the progress section is not even hidden (nothing marks the job Failed). -/
theorem batch_transport_error_silent_counterexample :
    (handleTransportError initMonitor).closed = true ∧
    (handleTransportError initMonitor).alerts = [] ∧
    (handleTransportError initMonitor).progressVisible = true :=
  ⟨rfl, rfl, rfl⟩

/-- Claim C5 (amended): an in-band error event is reported to the user via alert,
hides the progress section and tears down the subscription; a transport-level
channel error tears down the subscription silently — no alert, no other state
change; in both cases no further channel event is processed afterwards. -/
theorem batch_stream_failure_teardown :
    (∀ (s : MonitorState) (ev : ProgressEvent) (msg : String),
        s.closed = false → ev.error = some msg →
        (handleMessage s ev).closed = true ∧
        (handleMessage s ev).alerts = s.alerts ++ [msg] ∧
        (handleMessage s ev).progressVisible = false) ∧
    (∀ s : MonitorState, s.closed = false →
        (handleTransportError s).closed = true ∧
        (handleTransportError s).alerts = s.alerts ∧
        (handleTransportError s).progressVisible = s.progressVisible ∧
        (handleTransportError s).results = s.results) ∧
    (∀ (s : MonitorState) (e : BatchEvent), s.closed = true → batchStep s e = s) := by
  refine ⟨?_, ?_, batchStep_closed⟩
  · intro s ev msg hc he
    rw [handleMessage_open_error s ev msg hc he]
    exact ⟨rfl, rfl, rfl⟩
  · intro s hc
    rw [handleTransportError_open s hc]
    exact ⟨rfl, rfl, rfl, rfl⟩

/-- Witness for C5's amended theorem at concrete inputs. -/
theorem batch_stream_failure_teardown_witness :
    ((handleMessage initMonitor evError).closed = true ∧
     (handleMessage initMonitor evError).alerts = ["boom"] ∧
     (handleMessage initMonitor evError).progressVisible = false) ∧
    ((handleTransportError initMonitor).closed = true ∧
     (handleTransportError initMonitor).alerts = [] ∧
     (handleTransportError initMonitor).progressVisible = true ∧
     (handleTransportError initMonitor).results = none) ∧
    batchStep (handleMessage initMonitor evError) (.message evDone)
        = handleMessage initMonitor evError :=
  ⟨batch_stream_failure_teardown.1 initMonitor evError "boom" rfl rfl,
   batch_stream_failure_teardown.2.1 initMonitor rfl,
   batch_stream_failure_teardown.2.2 (handleMessage initMonitor evError)
     (.message evDone) rfl⟩

/-- Counterexample to claim C6 as stated: when the `/batch/start` response has a
non-success HTTP status but a JSON body (a failed job creation), the code neither
reports an error nor refrains from subscribing — it opens a progress subscription
keyed by the body's (here absent) batch_id. -/
theorem batch_start_non_ok_counterexample :
    startBatchExport (.response false none)
      = { progressVisible := true, downloadVisible := false, alerts := [],
          subscriptionOpened := some none } := rfl

/-- Claim C6 (amended): only a *thrown* job-creation fetch (network failure or a
body that fails JSON parsing) is handled as a failure — alerted, progress section
hidden again, no subscription opened.  The HTTP status of a received response is
never inspected: every response whose body parses as JSON leads to a subscription
keyed by the body's batch_id field (absent when the body has none), with no error
report, regardless of job-creation success. -/
theorem batch_start_effects :
    (∀ msg, startBatchExport (.threw msg)
        = { progressVisible := false, downloadVisible := false,
            alerts := ["Batch export failed: " ++ msg], subscriptionOpened := none }) ∧
    (∀ (ok : Bool) (bid : Option Nat), startBatchExport (.response ok bid)
        = { progressVisible := true, downloadVisible := false, alerts := [],
            subscriptionOpened := some bid }) :=
  ⟨fun _ => rfl, fun _ _ => rfl⟩

/- ---------------------------------------------------------------------------
Preset application (claim C8) and clamping (claim C2).
--------------------------------------------------------------------------- -/

/-- Counterexample to claim C8 as stated: the preset/defaults handlers call
`response.json()` without ever reading `response.ok` (app.js lines 351-352 and
364-365), so a *failed* fetch — a non-success HTTP status whose body parses as
JSON — is not caught: its body replaces the settings vector and nothing is
logged.  Concretely, a non-ok response carrying the snapshot `pHuge` changes the
settings vector from the defaults to `pHuge`. -/
theorem preset_non_ok_counterexample :
    (step initState (.presetResult (.response false pHuge))).settings = pHuge ∧
    pHuge ≠ initState.settings := by
  constructor
  · rfl
  · decide

/-- Claim C8 (amended): only a *thrown* preset/defaults fetch (network failure,
or a body that fails JSON parsing) is treated as a failure — it is logged and the
whole client state, in particular the settings vector, is left entirely
unchanged.  The HTTP status of a received response is never inspected: any
response whose body parses as JSON replaces the entire settings vector
atomically in one assignment (run-to-completion: no await separates the
assignment from the subsequent reads), every field coming from the parsed body,
with no partial application and no intermediate observable state — even when the
fetch failed with a non-success status. -/
theorem preset_atomic_apply_and_failure :
    (∀ (s : AppState) (msg : String), step s (.presetResult (.threw msg)) = s) ∧
    (∀ (s : AppState) (ok : Bool) (p : Settings),
        (step s (.presetResult (.response ok p))).settings = p ∧
        ∀ f, fieldVal (step s (.presetResult (.response ok p))).settings f = fieldVal p f) := by
  refine ⟨fun _ _ => rfl, fun s ok p => ?_⟩
  have hset : (step s (.presetResult (.response ok p))).settings = p := by
    show (updatePreview { s with settings := p }).settings = p
    rw [updatePreview_settings]
  exact ⟨hset, fun f => by rw [hset]⟩

/-- Counterexample to claim C2: snapshot ingestion stores field values verbatim
(`state.settings = { ...preset }`, app.js lines 353 and 366), so no declared
bounded range can describe the stored exposure: a snapshot with exposure 1000 is
stored as 1000, and for *whatever* bounds the markup declares, the snapshot with
exposure `max lo hi + 1` is stored unchanged, above the nearest-boundary clamp. -/
theorem settings_clamping_counterexample :
    (step initState (.presetResult (.response true pHuge))).settings.exposure = 1000 ∧
    ¬ ∃ lo hi : ℚ, ∀ p : Settings,
        (step initState (.presetResult (.response true p))).settings.exposure
          = spec_clamp lo hi p.exposure := by
  constructor
  · rfl
  · rintro ⟨lo, hi, h⟩
    have h1 := h { defaultSettings with exposure := max lo hi + 1 }
    have hl : (step initState (.presetResult
        (.response true { defaultSettings with exposure := max lo hi + 1 }))).settings.exposure
        = max lo hi + 1 := rfl
    rw [hl] at h1
    unfold spec_clamp at h1
    have hle : max lo (min (max lo hi + 1) hi) ≤ max lo hi := by
      apply max_le
      · exact le_max_left lo hi
      · exact le_trans (min_le_right _ _) (le_max_right lo hi)
    rw [← h1] at hle
    linarith

/-- Claim C2 (amended): this code performs no clamping at all.  Adjustment values
are stored verbatim — the slider handler assigns the parsed control value directly
to the named field, and preset/defaults snapshots replace the vector unvalidated —
and the stored vector is what is later displayed and sent.  Range enforcement for
slider input lives solely in the HTML range controls, outside this file. -/
theorem settings_stored_verbatim :
    (∀ (s : AppState) (f : SettingsField) (v : ℚ),
        (step s (.sliderInput f v)).settings = setField s.settings f v) ∧
    (∀ (st : Settings) (f : SettingsField) (v : ℚ), fieldVal (setField st f v) f = v) ∧
    (∀ (s : AppState) (ok : Bool) (p : Settings),
        (step s (.presetResult (.response ok p))).settings = p) := by
  refine ⟨?_, ?_, ?_⟩
  · intro s f v
    show (updatePreview { s with settings := setField s.settings f v }).settings = _
    rw [updatePreview_settings]
  · intro st f v
    cases f <;> rfl
  · intro s ok p
    show (updatePreview { s with settings := p }).settings = p
    rw [updatePreview_settings]

/- ---------------------------------------------------------------------------
Registry and active-file invariant (claims C9, C10).
--------------------------------------------------------------------------- -/

theorem deleteFile_active_some_eq (s : AppState) (fid : Nat) (f0 : UploadedFile)
    (ha : s.activeFileId = some fid)
    (hh : (s.files.filter (fun f => f.file_id != fid)).head? = some f0) :
    deleteFile s fid true =
      updatePreview { s with files := s.files.filter (fun f => f.file_id != fid),
                             activeFileId := some f0.file_id, beforeImageUrl := none } := by
  rw [deleteFile_active_eq s fid ha, hh]

theorem deleteFile_active_none_eq (s : AppState) (fid : Nat)
    (ha : s.activeFileId = some fid)
    (hh : (s.files.filter (fun f => f.file_id != fid)).head? = none) :
    deleteFile s fid true =
      { s with files := s.files.filter (fun f => f.file_id != fid),
               activeFileId := none, beforeImageUrl := none,
               previewVisible := false, comparisonVisible := false,
               placeholderVisible := true } := by
  rw [deleteFile_active_eq s fid ha, hh]

theorem fireTimer_files (s : AppState) (t : Nat) : (fireTimer s t).files = s.files := by
  unfold fireTimer; split <;> rfl

theorem fireTimer_activeFileId (s : AppState) (t : Nat) :
    (fireTimer s t).activeFileId = s.activeFileId := by
  unfold fireTimer; split <;> rfl

theorem previewArrive_files (s : AppState) (i : Nat) (ok bOk : Bool) :
    (previewArrive s i ok bOk).files = s.files := by
  cases hih : s.issuedFetches[i]? with
  | none => rw [previewArrive_of_none s i ok bOk hih]
  | some req =>
      cases ok with
      | false => rw [previewArrive_of_not_ok s i bOk req hih]
      | true =>
          rw [previewArrive_of_ok s i bOk req hih, updateComparisonView_files]
          split
          · rw [loadBeforeImage_files]
          · rfl

theorem previewArrive_activeFileId (s : AppState) (i : Nat) (ok bOk : Bool) :
    (previewArrive s i ok bOk).activeFileId = s.activeFileId := by
  cases hih : s.issuedFetches[i]? with
  | none => rw [previewArrive_of_none s i ok bOk hih]
  | some req =>
      cases ok with
      | false => rw [previewArrive_of_not_ok s i bOk req hih]
      | true =>
          rw [previewArrive_of_ok s i bOk req hih, updateComparisonView_activeFileId]
          split
          · rw [loadBeforeImage_activeFileId]
          · rfl

theorem compareToggle_files (s : AppState) (c bOk : Bool) :
    (compareToggle s c bOk).files = s.files := by
  rw [compareToggle_eq, updateComparisonView_files]
  split
  · rw [loadBeforeImage_files]
  · rfl

theorem compareToggle_activeFileId (s : AppState) (c bOk : Bool) :
    (compareToggle s c bOk).activeFileId = s.activeFileId := by
  rw [compareToggle_eq, updateComparisonView_activeFileId]
  split
  · rw [loadBeforeImage_activeFileId]
  · rfl

theorem activeInv_of_eq (s s' : AppState) (hf : s'.files = s.files)
    (ha : s'.activeFileId = s.activeFileId) (h : ActiveInv s) : ActiveInv s' := by
  unfold ActiveInv at *
  rw [hf, ha]
  exact h

theorem activeInv_updatePreview (s : AppState) (h : ActiveInv s) :
    ActiveInv (updatePreview s) :=
  activeInv_of_eq s _ (updatePreview_files s) (updatePreview_activeFileId s) h

theorem activeInv_uploadOk (s : AppState) (fid : Nat) (nm : String) (h : ActiveInv s) :
    ActiveInv (uploadOk s fid nm) := by
  rw [uploadOk_eq]
  split
  · rcases h with h | ⟨f, hmem, hact⟩
    · exact Or.inl h
    · exact Or.inr ⟨f, List.mem_append_left _ hmem, hact⟩
  · apply activeInv_updatePreview
    refine Or.inr ⟨⟨fid, nm, true⟩, List.mem_append_right _ ?_, rfl⟩
    exact List.mem_singleton_self _

theorem activeInv_selectFile (s : AppState) (fid : Nat)
    (hv : fid ∈ s.files.map (fun f => f.file_id)) :
    ActiveInv (selectFile s fid) := by
  unfold selectFile
  apply activeInv_updatePreview
  rcases List.mem_map.mp hv with ⟨f, hmem, hfid⟩
  exact Or.inr ⟨f, hmem, by rw [hfid]⟩

theorem activeInv_deleteFile (s : AppState) (fid : Nat) (netOk : Bool) (h : ActiveInv s) :
    ActiveInv (deleteFile s fid netOk) := by
  cases netOk with
  | false => exact h
  | true =>
      by_cases hA : s.activeFileId = some fid
      · cases hh : (s.files.filter (fun f => f.file_id != fid)).head? with
        | none =>
            rw [deleteFile_active_none_eq s fid hA hh]
            exact Or.inl rfl
        | some f0 =>
            rw [deleteFile_active_some_eq s fid f0 hA hh]
            apply activeInv_updatePreview
            exact Or.inr ⟨f0, List.mem_of_mem_head? hh, rfl⟩
      · rw [deleteFile_nonactive_eq s fid hA]
        rcases h with h | ⟨g, hmem, hact⟩
        · exact Or.inl h
        · refine Or.inr ⟨g, ?_, hact⟩
          refine List.mem_filter.mpr ⟨hmem, ?_⟩
          have hgne : g.file_id ≠ fid := by
            intro hq
            apply hA
            rw [hact, hq]
          exact bne_iff_ne.mpr hgne

theorem activeInv_map_id_preserving (s : AppState) (g : UploadedFile → UploadedFile)
    (hg : ∀ f, (g f).file_id = f.file_id) (h : ActiveInv s) :
    ActiveInv { s with files := s.files.map g } := by
  rcases h with h | ⟨f, hmem, hact⟩
  · exact Or.inl h
  · exact Or.inr ⟨g f, List.mem_map.mpr ⟨f, hmem, rfl⟩, by rw [hg f]; exact hact⟩

theorem activeInv_step (s : AppState) (e : Event) (hv : EventValid s e) (h : ActiveInv s) :
    ActiveInv (step s e) := by
  cases e with
  | uploadOk fid nm => exact activeInv_uploadOk s fid nm h
  | uploadErr msg => exact h
  | selectFile fid => exact activeInv_selectFile s fid hv
  | sliderInput f v =>
      exact activeInv_of_eq s _
        (by show (updatePreview _).files = s.files; rw [updatePreview_files])
        (by show (updatePreview _).activeFileId = s.activeFileId
            rw [updatePreview_activeFileId]) h
  | presetResult r =>
      cases r with
      | response hok p =>
          exact activeInv_of_eq s _
            (by show (updatePreview _).files = s.files; rw [updatePreview_files])
            (by show (updatePreview _).activeFileId = s.activeFileId
                rw [updatePreview_activeFileId]) h
      | threw msg => exact h
  | timerFire t =>
      exact activeInv_of_eq s _ (fireTimer_files s t) (fireTimer_activeFileId s t) h
  | previewArrive i ok bOk =>
      exact activeInv_of_eq s _ (previewArrive_files s i ok bOk)
        (previewArrive_activeFileId s i ok bOk) h
  | compareToggle c bOk =>
      exact activeInv_of_eq s _ (compareToggle_files s c bOk)
        (compareToggle_activeFileId s c bOk) h
  | deleteFile fid netOk => exact activeInv_deleteFile s fid netOk h
  | checkboxChange fid b =>
      exact activeInv_map_id_preserving s _
        (fun f => by by_cases hf : f.file_id = fid <;> simp [hf]) h
  | toggleSelectAll =>
      exact activeInv_map_id_preserving s _ (fun f => rfl) h

theorem activeInv_run (tr : List Event) (s : AppState) (h : ActiveInv s)
    (hv : ValidTrace s tr) : ActiveInv (run s tr) := by
  induction tr generalizing s with
  | nil => exact h
  | cons e es ih =>
      obtain ⟨h1, h2⟩ := hv
      exact ih (step s e) (activeInv_step s e h1 h) h2

/-- Claim C9: the active file id is always null or the id of a registry member;
this invariant is preserved by every operation (events with UI-captured file ids
being valid per `EventValid`) and holds in every state reachable from the initial
one; deleting the active file falls back to the first remaining file, or to null
when none remain — in which case no preview fetch is issued or scheduled by the
delete, and the comparison view and the preview image are hidden. -/
theorem active_file_invariant :
    (∀ (s : AppState) (e : Event), EventValid s e → ActiveInv s → ActiveInv (step s e)) ∧
    (∀ tr : List Event, ValidTrace initState tr → ActiveInv (run initState tr)) ∧
    (∀ (s : AppState) (fid : Nat), s.activeFileId = some fid →
        (step s (.deleteFile fid true)).activeFileId
          = ((s.files.filter (fun f => f.file_id != fid)).head?).map (fun f => f.file_id) ∧
        (s.files.filter (fun f => f.file_id != fid) = [] →
          (step s (.deleteFile fid true)).activeFileId = none ∧
          (step s (.deleteFile fid true)).issuedFetches = s.issuedFetches ∧
          (step s (.deleteFile fid true)).liveTimers = s.liveTimers ∧
          (step s (.deleteFile fid true)).nextTimer = s.nextTimer ∧
          (step s (.deleteFile fid true)).comparisonVisible = false ∧
          (step s (.deleteFile fid true)).previewVisible = false)) := by
  refine ⟨fun s e hv h => activeInv_step s e hv h,
          fun tr hv => activeInv_run tr initState (Or.inl rfl) hv, ?_⟩
  intro s fid hA
  constructor
  · cases hh : (s.files.filter (fun f => f.file_id != fid)).head? with
    | none =>
        have hd : step s (.deleteFile fid true)
            = { s with files := s.files.filter (fun f => f.file_id != fid),
                       activeFileId := none, beforeImageUrl := none,
                       previewVisible := false, comparisonVisible := false,
                       placeholderVisible := true } :=
          deleteFile_active_none_eq s fid hA hh
        rw [hd]
        rfl
    | some f0 =>
        have hd : step s (.deleteFile fid true)
            = updatePreview { s with files := s.files.filter (fun f => f.file_id != fid),
                                     activeFileId := some f0.file_id,
                                     beforeImageUrl := none } :=
          deleteFile_active_some_eq s fid f0 hA hh
        rw [hd, updatePreview_activeFileId]
        rfl
  · intro hnil
    have hh : (s.files.filter (fun f => f.file_id != fid)).head? = none := by
      rw [hnil]; rfl
    have hd : step s (.deleteFile fid true)
        = { s with files := s.files.filter (fun f => f.file_id != fid),
                   activeFileId := none, beforeImageUrl := none,
                   previewVisible := false, comparisonVisible := false,
                   placeholderVisible := true } :=
      deleteFile_active_none_eq s fid hA hh
    rw [hd]
    exact ⟨rfl, rfl, rfl, rfl, rfl, rfl⟩

/-- Witness for C9: the invariant step and reachability parts at a concrete state
and trace, and deletion of the only (active) file at a concrete one-file state. -/
theorem active_file_invariant_witness :
    (EventValid sOneActive (.selectFile 1) ∧ ActiveInv sOneActive ∧
     ActiveInv (step sOneActive (.selectFile 1))) ∧
    (ValidTrace initState [.uploadOk 1 "a"] ∧
     ActiveInv (run initState [.uploadOk 1 "a"])) ∧
    ((step sOneActive (.deleteFile 1 true)).activeFileId = none ∧
     (step sOneActive (.deleteFile 1 true)).issuedFetches = [] ∧
     (step sOneActive (.deleteFile 1 true)).liveTimers = [] ∧
     (step sOneActive (.deleteFile 1 true)).nextTimer = 0 ∧
     (step sOneActive (.deleteFile 1 true)).comparisonVisible = false ∧
     (step sOneActive (.deleteFile 1 true)).previewVisible = false) :=
  have hv : EventValid sOneActive (.selectFile 1) := by
    show (1 : Nat) ∈ sOneActive.files.map (fun f => f.file_id)
    decide
  have hinv : ActiveInv sOneActive := Or.inr ⟨⟨1, "a", true⟩, by decide, rfl⟩
  have htr : ValidTrace initState [.uploadOk 1 "a"] := ⟨trivial, trivial⟩
  ⟨⟨hv, hinv, active_file_invariant.1 sOneActive (.selectFile 1) hv hinv⟩,
   ⟨htr, active_file_invariant.2.1 [.uploadOk 1 "a"] htr⟩,
   (active_file_invariant.2.2 sOneActive 1 rfl).2 (by decide)⟩

theorem filter_ne_length (l : List UploadedFile) (fid : Nat)
    (hnd : (l.map (fun f => f.file_id)).Nodup)
    (hmem : fid ∈ l.map (fun f => f.file_id)) :
    (l.filter (fun f => f.file_id != fid)).length = l.length - 1 := by
  induction l with
  | nil => simp at hmem
  | cons a t ih =>
      rw [List.map_cons, List.nodup_cons] at hnd
      obtain ⟨hna, hnt⟩ := hnd
      by_cases hafid : a.file_id = fid
      · have ht : t.filter (fun f => f.file_id != fid) = t := by
          apply List.filter_eq_self.mpr
          intro b hb
          have hbne : b.file_id ≠ fid := by
            intro hq
            exact hna (List.mem_map.mpr ⟨b, hb, by rw [hq, hafid]⟩)
          exact bne_iff_ne.mpr hbne
        have hdrop : (a.file_id != fid) = false := by
          simp [hafid]
        simp [List.filter_cons, hdrop, ht]
      · have hmem' : fid ∈ t.map (fun f => f.file_id) := by
          rcases List.mem_cons.mp (by rwa [List.map_cons] at hmem) with hq | hq
          · exact absurd hq.symm hafid
          · exact hq
        have hlen := ih hnt hmem'
        have hpos : 1 ≤ t.length := by
          rcases List.mem_map.mp hmem' with ⟨b, hb, _⟩
          exact List.length_pos.mpr (List.ne_nil_of_mem hb)
        have hkeep : (a.file_id != fid) = true := bne_iff_ne.mpr hafid
        simp only [List.filter_cons, hkeep, if_true, List.length_cons, hlen]
        omega

/-- Claim C10: deleting a file that is not the active file removes exactly that
file (one fewer file, all others retained, given the unique-id registry
invariant) and leaves the active file, the cached baseline, the displayed
preview, the preview-fetch log, the live debounce timers, and the view
visibilities unchanged; an upload while a file is active appends the new file
without touching the active file; only an upload with no active file
auto-selects the uploaded file. -/
theorem delete_and_upload_frame_conditions :
    (∀ (s : AppState) (fid : Nat), s.activeFileId ≠ some fid →
        (step s (.deleteFile fid true)).files
            = s.files.filter (fun f => f.file_id != fid) ∧
        (step s (.deleteFile fid true)).activeFileId = s.activeFileId ∧
        (step s (.deleteFile fid true)).beforeImageUrl = s.beforeImageUrl ∧
        (step s (.deleteFile fid true)).displayedPreview = s.displayedPreview ∧
        (step s (.deleteFile fid true)).issuedFetches = s.issuedFetches ∧
        (step s (.deleteFile fid true)).liveTimers = s.liveTimers ∧
        (step s (.deleteFile fid true)).previewVisible = s.previewVisible ∧
        (step s (.deleteFile fid true)).comparisonVisible = s.comparisonVisible) ∧
    (∀ (l : List UploadedFile) (fid : Nat),
        (l.map (fun f => f.file_id)).Nodup → fid ∈ l.map (fun f => f.file_id) →
        (l.filter (fun f => f.file_id != fid)).length = l.length - 1 ∧
        (∀ g ∈ l, g.file_id ≠ fid → g ∈ l.filter (fun f => f.file_id != fid))) ∧
    (∀ (s : AppState) (fid : Nat) (nm : String), s.activeFileId.isSome = true →
        (step s (.uploadOk fid nm)).files = s.files ++ [⟨fid, nm, true⟩] ∧
        (step s (.uploadOk fid nm)).activeFileId = s.activeFileId ∧
        (step s (.uploadOk fid nm)).beforeImageUrl = s.beforeImageUrl ∧
        (step s (.uploadOk fid nm)).displayedPreview = s.displayedPreview ∧
        (step s (.uploadOk fid nm)).issuedFetches = s.issuedFetches) ∧
    (∀ (s : AppState) (fid : Nat) (nm : String), s.activeFileId = none →
        (step s (.uploadOk fid nm)).activeFileId = some fid) := by
  refine ⟨?_, ?_, ?_, ?_⟩
  · intro s fid hA
    have hd : step s (.deleteFile fid true)
        = { s with files := s.files.filter (fun f => f.file_id != fid) } :=
      deleteFile_nonactive_eq s fid hA
    rw [hd]
    exact ⟨rfl, rfl, rfl, rfl, rfl, rfl, rfl, rfl⟩
  · intro l fid hnd hmem
    refine ⟨filter_ne_length l fid hnd hmem, ?_⟩
    intro g hg hgne
    exact List.mem_filter.mpr ⟨hg, bne_iff_ne.mpr hgne⟩
  · intro s fid nm hA
    have hu : step s (.uploadOk fid nm)
        = { s with files := s.files ++ [⟨fid, nm, true⟩] } := by
      rw [step_uploadOk, uploadOk_eq, if_pos hA]
    rw [hu]
    exact ⟨rfl, rfl, rfl, rfl, rfl⟩
  · intro s fid nm hA
    have hu : step s (.uploadOk fid nm)
        = updatePreview { s with files := s.files ++ [⟨fid, nm, true⟩],
                                 activeFileId := some fid, beforeImageUrl := none } := by
      rw [step_uploadOk, uploadOk_eq, if_neg (by rw [hA]; exact Bool.false_ne_true)]
    rw [hu, updatePreview_activeFileId]

/-- Witness for C10 at concrete states: deleting non-active file 2 from a two-file
state, the counting facts for that registry, and uploads with and without an
active file. -/
theorem delete_and_upload_frame_conditions_witness :
    ((step sTwoFiles (.deleteFile 2 true)).files = [⟨1, "a", true⟩] ∧
     (step sTwoFiles (.deleteFile 2 true)).activeFileId = some 1 ∧
     (step sTwoFiles (.deleteFile 2 true)).beforeImageUrl = none ∧
     (step sTwoFiles (.deleteFile 2 true)).displayedPreview = none ∧
     (step sTwoFiles (.deleteFile 2 true)).issuedFetches = [] ∧
     (step sTwoFiles (.deleteFile 2 true)).liveTimers = [] ∧
     (step sTwoFiles (.deleteFile 2 true)).previewVisible = false ∧
     (step sTwoFiles (.deleteFile 2 true)).comparisonVisible = false) ∧
    ((sTwoFiles.files.filter (fun f => f.file_id != 2)).length
        = sTwoFiles.files.length - 1 ∧
     (∀ g ∈ sTwoFiles.files, g.file_id ≠ 2 →
        g ∈ sTwoFiles.files.filter (fun f => f.file_id != 2))) ∧
    ((step sTwoFiles (.uploadOk 3 "c")).files
        = [⟨1, "a", true⟩, ⟨2, "b", true⟩, ⟨3, "c", true⟩] ∧
     (step sTwoFiles (.uploadOk 3 "c")).activeFileId = some 1 ∧
     (step sTwoFiles (.uploadOk 3 "c")).beforeImageUrl = none ∧
     (step sTwoFiles (.uploadOk 3 "c")).displayedPreview = none ∧
     (step sTwoFiles (.uploadOk 3 "c")).issuedFetches = []) ∧
    (step initState (.uploadOk 1 "a")).activeFileId = some 1 :=
  ⟨delete_and_upload_frame_conditions.1 sTwoFiles 2 (by decide),
   delete_and_upload_frame_conditions.2.1 sTwoFiles.files 2 (by decide) (by decide),
   delete_and_upload_frame_conditions.2.2.1 sTwoFiles 3 "c" rfl,
   delete_and_upload_frame_conditions.2.2.2 initState 1 "a" rfl⟩

end Bol
